import Mathlib

/-!
Shallow embedding of the bjec execution core (`src/bjec/process.py`,
`src/bjec/subprocessor.py`, `src/bjec/io.py`, `src/bjec/utils.py`,
`src/bjec/htcondor.py`) together with theorems settling the claims about
its natural-language specification.

Conventions of the embedding:
* Python exceptions are modelled by the `PyExc` type: `processFailed`
  corresponds to the `_ProcessFailedError` class raised by the failure
  classification and the preparation protocol, `error` to every other
  Python exception (generic `Exception`, `AttributeError`, `OSError`, ...),
  carrying the message text.
* Fallible Python functions become Lean functions returning `Except PyExc`
  values or pairs whose first component is such a value.
* The file system is an explicit state (`FS`), an insertion-ordered
  association list from paths to files plus a counter giving `mkstemp` its
  fresh names.  Path identity stands in for inode identity
  (`os.path.samefile`); symbolic and hard links are not modelled.
-/

set_option autoImplicit false

namespace Bjec

/-- Python exceptions: `processFailed` is `_ProcessFailedError`
(subprocessor.py line 22), `error` is any other exception with its
message. -/
inductive PyExc where
  | processFailed (msg : String)
  | error (msg : String)
deriving DecidableEq, Repr

/-! ## HTCondor wire-encoding helpers (htcondor.py lines 181-298) -/

/-- The single-quote character, written via its code point. -/
def squote : Char := Char.ofNat 39

/-- `_contains_any(s, what)` (htcondor.py lines 181-186): true iff some
character of `what` occurs in `s`. -/
def _contains_any (s : String) (what : List Char) : Bool :=
  what.any fun c => s.data.contains c

/-- Python `str.replace(c, r)` for a single-character pattern `c`; the only
uses in the encoders replace one character by a two-character string. -/
def pyReplace (s : String) (c : Char) (r : String) : String :=
  ⟨(s.data.map fun a => if a = c then r.data else [a]).flatten⟩

/-- `_quote(token)` (htcondor.py lines 188-198). -/
def _quote (token : String) : String :=
  let quote_wrap := _contains_any token [' ', '\t', squote]
  let quoted := pyReplace (pyReplace token squote ⟨[squote, squote]⟩) '"' "\"\""
  if quote_wrap then
    ⟨[squote]⟩ ++ quoted ++ ⟨[squote]⟩
  else if token.length = 0 then
    ⟨[squote]⟩ ++ token ++ ⟨[squote]⟩
  else
    quoted

/-- `_args_to_str(args)` (htcondor.py lines 200-224). -/
def _args_to_str (args : List String) : String :=
  "\"" ++ String.intercalate " " (args.map _quote) ++ "\""

/-- `_environment_to_str(environment)` (htcondor.py lines 226-251); the
Python dict is modelled as an insertion-ordered association list. -/
def _environment_to_str (environment : List (String × String)) : String :=
  "\"" ++ String.intercalate " "
    (environment.map fun kv => kv.1 ++ "=" ++ _quote kv.2) ++ "\""

/-- `_file_remaps_to_str(remaps)` (htcondor.py lines 253-283): `=` escaped
as `\=` in keys, `;` escaped as `\;` in values, entries joined by `;`. -/
def _file_remaps_to_str (remaps : List (String × String)) : String :=
  let esc_k := fun s => pyReplace s '=' "\\="
  let esc_v := fun s => pyReplace s ';' "\\;"
  "\"" ++ String.intercalate ";"
    (remaps.map fun kv => esc_k kv.1 ++ "=" ++ esc_v kv.2) ++ "\""

/-! ## Result (process.py lines 788-872) -/

/-- `FileAccessor` (process.py lines 788-820): name, the path opened for
reading, and the optional persistent path. -/
structure FileAccessor where
  name : String
  open_path : String
  path : Option String
deriving DecidableEq, Repr

/-- `Result.__init__` (process.py lines 823-838).  Note line 833 of the
source: `self._exit_code: int = 0` — the `exit_code` argument is
discarded and the stored exit code is always `0`. -/
structure Result where
  _exit_code : Int
  _stdin : Option FileAccessor
  _stdout : Option FileAccessor
  _stderr : Option FileAccessor
  _input_files : List (String × FileAccessor)
  _output_files : List (String × FileAccessor)
deriving DecidableEq, Repr

set_option linter.unusedVariables false in
/-- Constructor call `Result(exit_code, stdin, stdout, stderr,
input_files, output_files)`; mirrors process.py lines 824-838 including
the line-833 assignment of the constant `0`. -/
def mkResult (exit_code : Int) (stdin stdout stderr : Option FileAccessor)
    (input_files output_files : List (String × FileAccessor)) : Result :=
  { _exit_code := 0
    _stdin := stdin
    _stdout := stdout
    _stderr := stderr
    _input_files := input_files
    _output_files := output_files }

/-- `Result.exit_code` property (process.py lines 840-842). -/
def Result.exit_code (r : Result) : Int := r._exit_code

/-- `Result.stdout` property (process.py lines 850-854): raises when
stdout was not captured. -/
def Result.stdoutProp (r : Result) : Except PyExc FileAccessor :=
  match r._stdout with
  | none => .error (.error "Stdout was not captured.")
  | some a => .ok a

/-- `Result.stderr` property (process.py lines 856-860): raises when
stderr was not captured. -/
def Result.stderrProp (r : Result) : Except PyExc FileAccessor :=
  match r._stderr with
  | none => .error (.error "Stderr was not captured.")
  | some a => .ok a

/-! ## Failure classification (process.py, subprocessor.py) -/

/-- `Process._FailureMode` / `Process.FailureMode` (process.py lines
698-702 and 747-751).  Predicates are Python callables and may raise, so
they return `Except PyExc Bool` in the embedding. -/
structure FailureMode where
  interpret_exit_code : Option (Int → Except PyExc Bool)
  interpret_stderr : Option (FileAccessor → Except PyExc Bool)
  interpret_stdout : Option (FileAccessor → Except PyExc Bool)

/-- The failure mode installed by `Process.__init__` (process.py lines
764-766): only `interpret_exit_code = lambda code: code != 0`. -/
def processInitFailureMode : FailureMode :=
  { interpret_exit_code := some fun code => .ok (code != 0)
    interpret_stderr := none
    interpret_stdout := none }

/-- `Process.Fluid.failure_mode` (process.py lines 510-548): the recorded
step replaces the whole `_failure_mode` record with the three arguments,
so configuring any predicate discards the default exit-code predicate. -/
def fluid_failure_mode (interpret_exit_code : Option (Int → Except PyExc Bool))
    (interpret_stderr interpret_stdout : Option (FileAccessor → Except PyExc Bool)) :
    FailureMode :=
  { interpret_exit_code := interpret_exit_code
    interpret_stderr := interpret_stderr
    interpret_stdout := interpret_stdout }

/-- First statement block of `_ProcessRunner._check_for_failure`
(subprocessor.py lines 290-292): evaluate the exit-code predicate on
`result.exit_code` and raise `_ProcessFailedError` if it is true. -/
def checkExitCode (fm : FailureMode) (r : Result) : Except PyExc Unit :=
  match fm.interpret_exit_code with
  | none => .ok ()
  | some f =>
    match f r.exit_code with
    | .error e => .error e
    | .ok b =>
      if b then
        .error (.processFailed
          ("Exit code " ++ toString r.exit_code ++ " interpreted as failure"))
      else .ok ()

/-- Second statement block of `_ProcessRunner._check_for_failure`
(subprocessor.py lines 293-295): the predicate receives
`result.stderr`, whose property accessor raises when stderr was not
captured. -/
def checkStderr (fm : FailureMode) (r : Result) : Except PyExc Unit :=
  match fm.interpret_stderr with
  | none => .ok ()
  | some f =>
    match r.stderrProp with
    | .error e => .error e
    | .ok a =>
      match f a with
      | .error e => .error e
      | .ok b =>
        if b then .error (.processFailed "Stderr interpreted as failure")
        else .ok ()

/-- Third statement block of `_ProcessRunner._check_for_failure`
(subprocessor.py lines 296-298). -/
def checkStdout (fm : FailureMode) (r : Result) : Except PyExc Unit :=
  match fm.interpret_stdout with
  | none => .ok ()
  | some f =>
    match r.stdoutProp with
    | .error e => .error e
    | .ok a =>
      match f a with
      | .error e => .error e
      | .ok b =>
        if b then .error (.processFailed "Stdout interpreted as failure")
        else .ok ()

/-- `_ProcessRunner._check_for_failure` (subprocessor.py lines 287-298):
the three predicate blocks run in source order, stopping at the first
raise. -/
def check_for_failure (fm : FailureMode) (r : Result) : Except PyExc Unit :=
  match checkExitCode fm r with
  | .error e => .error e
  | .ok () =>
    match checkStderr fm r with
    | .error e => .error e
    | .ok () => checkStdout fm r

/-- Lifts plain boolean predicates (the common case of user-configured
predicates that do not raise) into a `FailureMode`. -/
def pureFM (ec : Option (Int → Bool)) (sd so : Option (FileAccessor → Bool)) :
    FailureMode :=
  { interpret_exit_code := ec.map fun f x => .ok (f x)
    interpret_stderr := sd.map fun f a => .ok (f a)
    interpret_stdout := so.map fun f a => .ok (f a) }

/-- Which predicate fired, in the fixed evaluation order. -/
inductive FailKind where
  | exitCode
  | stderrKind
  | stdoutKind
deriving DecidableEq, Repr

/-- Specification-side classification: the first configured predicate
(in the order exit code, stderr, stdout) that returns true, if any. -/
def classifySpec (ec : Option (Int → Bool)) (sd so : Option (FileAccessor → Bool))
    (code : Int) (aErr aOut : FileAccessor) : Option FailKind :=
  if (match ec with | some f => f code | none => false) then some .exitCode
  else if (match sd with | some f => f aErr | none => false) then some .stderrKind
  else if (match so with | some f => f aOut | none => false) then some .stdoutKind
  else none

/-- The `_ProcessFailedError` message produced for each predicate kind. -/
def failMsg (code : Int) : FailKind → String
  | .exitCode => "Exit code " ++ toString code ++ " interpreted as failure"
  | .stderrKind => "Stderr interpreted as failure"
  | .stdoutKind => "Stdout interpreted as failure"

/-! ## File system model and the preparation protocol (io.py, subprocessor.py) -/

/-- Content sources (io.py): `WriteableFromPath` (a reference to an
existing on-disk file; its constructor stores `os.path.abspath(path)`,
paths in the model are taken as already absolute), `WriteableFromStr`
and `WriteableFromBytes` (literal content, bytes as codepoint lists). -/
inductive Writeable where
  | fromPath (path : String)
  | fromStr (content : String)
  | fromBytes (content : List Nat)
deriving DecidableEq, Repr

/-- One file: its mode bits and the content source last written into it
(`none` = created empty, never written). -/
structure File where
  mode : Nat
  content : Option Writeable
deriving DecidableEq, Repr

/-- The file system: an insertion-ordered association list from paths to
files, plus the counter from which `mkstemp` derives fresh names. -/
structure FS where
  files : List (String × File)
  nextTemp : Nat
deriving DecidableEq, Repr

def FS.lookup (fs : FS) (p : String) : Option File :=
  (fs.files.find? fun kv => kv.1 = p).map fun kv => kv.2

def FS.existsAt (fs : FS) (p : String) : Bool :=
  (fs.lookup p).isSome

/-- Create or overwrite the file at `p`. -/
def FS.setFile (fs : FS) (p : String) (f : File) : FS :=
  if fs.existsAt p then
    { fs with files := fs.files.map fun kv => if kv.1 = p then (p, f) else kv }
  else
    { fs with files := fs.files ++ [(p, f)] }

/-- `os.unlink`; removing a missing path leaves the file system
unchanged (in the verified scenarios the path always exists). -/
def FS.remove (fs : FS) (p : String) : FS :=
  { fs with files := fs.files.filter fun kv => ¬ kv.1 = p }

/-- `os.chmod(p, mode)`; no-op on a missing path (the verified scenarios
only chmod existing paths). -/
def FS.chmod (fs : FS) (p : String) (mode : Nat) : FS :=
  match fs.lookup p with
  | none => fs
  | some f => fs.setFile p { f with mode := mode }

/-- `tempfile.mkstemp()`: allocates a fresh private path (uniqueness is
guaranteed by the facility) and creates an empty file with mode 0600. -/
def FS.mkstemp (fs : FS) : String × FS :=
  let p := "/tmp/bjec" ++ toString fs.nextTemp
  (p, { files := fs.files ++ [(p, { mode := 0o600, content := none })]
        nextTemp := fs.nextTemp + 1 })

/-- `os.path.samefile(a, b)` under path identity: raises
`FileNotFoundError` when either path does not exist, otherwise compares
the paths (links are not modelled). -/
def FS.samefile (fs : FS) (a b : String) : Except PyExc Bool :=
  if fs.existsAt a ∧ fs.existsAt b then .ok (a = b)
  else .error (.error "FileNotFoundError: samefile")

/-- `source.write_to(WriteOpenableFromPath(p))` (io.py lines 170-253):
opens `p` for writing, truncating, and writes the source content; when
`p` is missing it is created with the default open mode 0666 (all
reachable call sites write to an existing file). -/
def FS.writeTo (fs : FS) (p : String) (w : Writeable) : FS :=
  match fs.lookup p with
  | some f => fs.setFile p { f with content := some w }
  | none => fs.setFile p { mode := 0o666, content := some w }

/-- Python bitwise `m & ~u` for the non-negative mode and umask values. -/
def andNotBits (m u : Nat) : Nat :=
  Nat.bitwise (fun x y => x && !y) m u

/-- A registered cleanup handler.  Both preparation functions register
exactly `lambda: os.unlink(descriptor.open_path)` (subprocessor.py lines
110 and 179), so a handler is identified by the path it unlinks. -/
inductive CleanupAction where
  | unlink (path : String)
deriving DecidableEq, Repr

/-- Observable events of one executor lifetime: a process spawn and the
invocation of one registered cleanup handler. -/
inductive Event where
  | spawn (cmd : String) (args : List String)
  | runHandler (h : CleanupAction)
deriving DecidableEq, Repr

/-- `HandlersList.__call__` (utils.py lines 82-84): invokes the handlers
in registration order; in the model each invocation unlinks its path and
is recorded as a `runHandler` event.  The list is not cleared. -/
def runHandlers (fs : FS) (hs : List CleanupAction) : FS × List Event :=
  (hs.foldl (fun acc h => match h with | .unlink p => acc.remove p) fs,
   hs.map Event.runHandler)

/-- A resolved `Process.InputFile` (process.py lines 715-722) or
`Process.Stdin` (lines 725-735): `isInputFile` records the Python class
(`Process.Stdin` has no `name` field, its `name` here is unused and
carries `""`), `source` is optional because `Stdin.source` is. -/
structure InputFileSpec where
  name : String
  isInputFile : Bool
  source : Option Writeable
  path : Option String
  must_not_exist : Bool
  mode : Nat
  cleanup_after_finish : Bool
deriving Repr

/-- A resolved `Process.OutputFile` (process.py lines 705-712) or
`Process.Stdout` (lines 738-744): `isOutputFile` records the Python
class; `capture` and `create` belong to `Stdout` resp. `OutputFile`
only. -/
structure OutputFileSpec where
  name : String
  isOutputFile : Bool
  capture : Bool
  path : Option String
  must_not_exist : Bool
  create : Bool
  mode : Nat
  cleanup_after_finish : Bool
deriving Repr

/-- The `FileDescriptor` dataclass (subprocessor.py lines 26-36). -/
structure FileDescriptor where
  name : String
  open_path : String
  process_path : String
  temporary : Bool
  cleanup : Bool
  path : Option String
deriving DecidableEq, Repr

/-- `FileDescriptor.accessor()` (subprocessor.py lines 35-36). -/
def FileDescriptor.accessor (d : FileDescriptor) : FileAccessor :=
  ⟨d.name, d.open_path, d.path⟩

/-- `prepare_input_file(spec, exit_handlers, cleanup_handlers, name,
temp_dir)` (subprocessor.py lines 39-112), state-passing over the file
system and the cleanup-handler list (which it only appends to; the
`exit_handlers` stack is never touched by this function).  On a raise
the file system and handler list are returned unchanged, which matches
the source: every raising path raises before mutating either.

Control flow from the source:
* line 46: `spec.source is None` raises a generic `Exception`;
* lines 52-53: the effective name;
* lines 55-59: the circular-dependency check (`os.path.samefile`);
* line 62: the pinned-path branch first evaluates `spec.create_parents`
  — neither `Process.InputFile` nor `Process.Stdin` defines that
  attribute, so Python raises `AttributeError` here and the rest of the
  pinned-path branch (exclusive create, `must_not_exist` handling,
  chmod, lines 65-83) is unreachable;
* lines 85-93: `WriteableFromPath` source without a pinned path: the
  descriptor points at the source, nothing is written (`write_to` stays
  false), no handler is registered (`cleanup = false`);
* lines 95-110: otherwise a temp file is allocated, the content written
  into it, and an unlink handler registered (`cleanup = true`). -/
def prepare_input_file (spec : InputFileSpec) (nameArg : String) (fs : FS)
    (cleanup_handlers : List CleanupAction) :
    Except PyExc FileDescriptor × FS × List CleanupAction :=
  match spec.source with
  | none => (.error (.error "Invalid use, spec.source is None"), fs, cleanup_handlers)
  | some source =>
    let name := if nameArg = "" ∧ spec.isInputFile then spec.name else nameArg
    let circular : Except PyExc Unit :=
      match source, spec.path with
      | .fromPath sp, some p =>
        match fs.samefile p sp with
        | .error e => .error e
        | .ok same =>
          if same then
            .error (.processFailed ("Input file " ++ name ++
              " is to be sourced from its own path (circular dependency)"))
          else .ok ()
      | _, _ => .ok ()
    match circular with
    | .error e => (.error e, fs, cleanup_handlers)
    | .ok () =>
      match spec.path with
      | some _ =>
        (.error (.error "AttributeError: create_parents"), fs, cleanup_handlers)
      | none =>
        match source with
        | .fromPath sp =>
          (.ok ⟨name, sp, sp, false, false, none⟩, fs, cleanup_handlers)
        | _ =>
          let (tmp, fs1) := fs.mkstemp
          let fs2 := fs1.writeTo tmp source
          (.ok ⟨name, tmp, tmp, true, true, none⟩, fs2,
            cleanup_handlers ++ [.unlink tmp])

/-- `prepare_output_file(spec, exit_handlers, cleanup_handlers, name,
temp_dir)` (subprocessor.py lines 114-181), with the same conventions as
`prepare_input_file`:
* lines 121-122: a non-captured `Process.Stdout` raises;
* lines 126-127: the effective name;
* line 130: the pinned-path branch evaluates `spec.create_parents` —
  the attribute does not exist on `Process.OutputFile` or
  `Process.Stdout`, so Python raises `AttributeError` and lines 133-159
  (exclusive create, the deferred `set_mode` exit handler) are
  unreachable;
* lines 161-170: otherwise a temp file is allocated (`cleanup = true`);
* lines 172-176: an `OutputFile` with `create = False` has the realized
  path deleted again;
* lines 178-179: an unlink handler is registered when `cleanup`. -/
def prepare_output_file (spec : OutputFileSpec) (nameArg : String) (fs : FS)
    (cleanup_handlers : List CleanupAction) :
    Except PyExc FileDescriptor × FS × List CleanupAction :=
  if spec.isOutputFile = false ∧ spec.capture = false then
    (.error (.error "Invalid use, spec.capture is False"), fs, cleanup_handlers)
  else
    let name := if nameArg = "" ∧ spec.isOutputFile then spec.name else nameArg
    match spec.path with
    | some _ =>
      (.error (.error "AttributeError: create_parents"), fs, cleanup_handlers)
    | none =>
      let (tmp, fs1) := fs.mkstemp
      let fs2 := if spec.isOutputFile ∧ spec.create = false then fs1.remove tmp else fs1
      (.ok ⟨name, tmp, tmp, true, true, none⟩, fs2,
        cleanup_handlers ++ [.unlink tmp])

/-! ## The local concurrent executor (subprocessor.py lines 195-392) -/

/-- A parameter set: a string-keyed mapping, consumed opaquely. -/
abbrev ParamSet := List (String × String)

/-- The view `Process.with_params(params)` exposes to the runner
(process.py lines 569-657): all fields resolved against one parameter
set.  `stdin.isInputFile` is false and `stdout.isOutputFile` /
`stderr.isOutputFile` are false since those specs are `Process.Stdin` /
`Process.Stdout` instances. -/
structure ResolvedProcess where
  cmd : String
  args : List String
  working_directory : Option String
  environment : List (String × String)
  stdin : InputFileSpec
  stdout : OutputFileSpec
  stderr : OutputFileSpec
  input_files : List InputFileSpec
  output_files : List OutputFileSpec
  failure_mode : FailureMode

/-- `os.open(p, os.O_RDONLY)` (subprocessor.py line 377): raises when
the path does not exist. -/
def osOpenRead (fs : FS) (p : String) : Except PyExc Unit :=
  if fs.existsAt p then .ok () else .error (.error "FileNotFoundError: open")

/-- `os.open(p, os.O_WRONLY|os.O_TRUNC)` (subprocessor.py line 389):
raises when the path does not exist, otherwise truncates. -/
def osOpenTrunc (fs : FS) (p : String) : Except PyExc FS :=
  match fs.lookup p with
  | some f => .ok (fs.setFile p { f with content := none })
  | none => .error (.error "FileNotFoundError: open")

/-- `_ProcessRunner._prepare_stdin` (subprocessor.py lines 369-379),
executed only when `p.stdin.connected`; the resulting read descriptor
and its exit-stack close callback are not modelled beyond the open
check. -/
def prepareStdinStep (spec : InputFileSpec) (fs : FS) (hs : List CleanupAction) :
    Except PyExc (Option FileDescriptor) × FS × List CleanupAction :=
  if spec.source.isSome then
    match prepare_input_file spec "stdin" fs hs with
    | (.error e, fs1, hs1) => (.error e, fs1, hs1)
    | (.ok d, fs1, hs1) =>
      match osOpenRead fs1 d.open_path with
      | .error e => (.error e, fs1, hs1)
      | .ok () => (.ok (some d), fs1, hs1)
  else (.ok none, fs, hs)

/-- `_ProcessRunner._prepare_stdout` (subprocessor.py lines 381-391),
executed only when the stream is captured. -/
def prepareStdoutStep (spec : OutputFileSpec) (nameArg : String) (fs : FS)
    (hs : List CleanupAction) :
    Except PyExc (Option FileDescriptor) × FS × List CleanupAction :=
  if spec.capture then
    match prepare_output_file spec nameArg fs hs with
    | (.error e, fs1, hs1) => (.error e, fs1, hs1)
    | (.ok d, fs1, hs1) =>
      match osOpenTrunc fs1 d.open_path with
      | .error e => (.error e, fs1, hs1)
      | .ok fs2 => (.ok (some d), fs2, hs1)
  else (.ok none, fs, hs)

/-- The list comprehension preparing all input files (subprocessor.py
lines 325-328): stops at the first raise, keeping the state changes and
handlers registered up to that point. -/
def prepareInputFiles : List InputFileSpec → FS → List CleanupAction →
    Except PyExc (List FileDescriptor) × FS × List CleanupAction
  | [], fs, hs => (.ok [], fs, hs)
  | s :: ss, fs, hs =>
    match prepare_input_file s "" fs hs with
    | (.error e, fs1, hs1) => (.error e, fs1, hs1)
    | (.ok d, fs1, hs1) =>
      match prepareInputFiles ss fs1 hs1 with
      | (.error e, fs2, hs2) => (.error e, fs2, hs2)
      | (.ok ds, fs2, hs2) => (.ok (d :: ds), fs2, hs2)

/-- The list comprehension preparing all output files (subprocessor.py
lines 330-333). -/
def prepareOutputFiles : List OutputFileSpec → FS → List CleanupAction →
    Except PyExc (List FileDescriptor) × FS × List CleanupAction
  | [], fs, hs => (.ok [], fs, hs)
  | s :: ss, fs, hs =>
    match prepare_output_file s "" fs hs with
    | (.error e, fs1, hs1) => (.error e, fs1, hs1)
    | (.ok d, fs1, hs1) =>
      match prepareOutputFiles ss fs1 hs1 with
      | (.error e, fs2, hs2) => (.error e, fs2, hs2)
      | (.ok ds, fs2, hs2) => (.ok (d :: ds), fs2, hs2)

/-- `CallbackOnException(cleanup_handlers)` firing (utils.py lines
87-105 with subprocessor.py line 302): on an exception escaping
`_run_subprocess` the registered cleanup handlers run, then the
exception propagates. -/
def abortRun (e : PyExc) (fs : FS) (hs : List CleanupAction) :
    Except PyExc (Result × List CleanupAction) × FS × List Event :=
  (.error e, (runHandlers fs hs).1, (runHandlers fs hs).2)

/-- `_ProcessRunner._run_subprocess(params)` (subprocessor.py lines
300-367).  `proc` models `self._process.with_params`; `spawn` is the
external-process oracle mapping the resolved command line to the exit
status `subprocess.Popen(...).wait()` observes.  Returns the outcome
(the `Result` and this invocation's cleanup-handler list), the file
system after the call, and the emitted events.  Steps, in source order:
stdin (when connected), stdout and stderr (when captured), input files,
output files, then the re-resolution of the template against
`ChainMap({'__file_<name>': process_path}, params)` (lines 335-339,
modelled by prepending the synthetic pairs), the spawn (lines 341-352),
and the `Result` construction (lines 354-365) via `mkResult`. -/
def _run_subprocess (proc : ParamSet → ResolvedProcess)
    (spawn : String → List String → Int) (params : ParamSet) (fs0 : FS) :
    Except PyExc (Result × List CleanupAction) × FS × List Event :=
  let p := proc params
  match prepareStdinStep p.stdin fs0 [] with
  | (.error e, fs1, hs1) => abortRun e fs1 hs1
  | (.ok stdinD, fs1, hs1) =>
    match prepareStdoutStep p.stdout "stdout" fs1 hs1 with
    | (.error e, fs2, hs2) => abortRun e fs2 hs2
    | (.ok stdoutD, fs2, hs2) =>
      match prepareStdoutStep p.stderr "stderr" fs2 hs2 with
      | (.error e, fs3, hs3) => abortRun e fs3 hs3
      | (.ok stderrD, fs3, hs3) =>
        match prepareInputFiles p.input_files fs3 hs3 with
        | (.error e, fs4, hs4) => abortRun e fs4 hs4
        | (.ok inDs, fs4, hs4) =>
          match prepareOutputFiles p.output_files fs4 hs4 with
          | (.error e, fs5, hs5) => abortRun e fs5 hs5
          | (.ok outDs, fs5, hs5) =>
            let fileParams := (inDs ++ outDs).map fun d =>
              ("__file_" ++ d.name, d.process_path)
            let p2 := proc (fileParams ++ params)
            let code := spawn p2.cmd p2.args
            let result := mkResult code
              (stdinD.map FileDescriptor.accessor)
              (stdoutD.map FileDescriptor.accessor)
              (stderrD.map FileDescriptor.accessor)
              (inDs.map fun d => (d.name, d.accessor))
              (outDs.map fun d => (d.name, d.accessor))
            (.ok (result, hs5), fs5, [.spawn p2.cmd p2.args])

/-- `_ProcessRunner.run(params)` (subprocessor.py lines 264-285).
Returns the outcome, the file system, the events of this call, and the
handlers merged into the executor-wide registry (lines 282-283, reached
on the normal return paths only):
* an exception from `_run_subprocess` propagates (lines 265-270; its
  handlers already ran via `CallbackOnException`), nothing is merged;
* a `_ProcessFailedError` from `_check_for_failure` runs this
  invocation's handlers and re-raises (lines 272-278);
* any other exception from `_check_for_failure` hits the bare
  `except:` (lines 279-280): the handlers run, the exception is
  swallowed, and the function falls through to merge the (already run)
  handlers and return `(params, result)` as on success. -/
def _ProcessRunner_run (proc : ParamSet → ResolvedProcess)
    (spawn : String → List String → Int) (params : ParamSet) (fs0 : FS) :
    Except PyExc (ParamSet × Result) × FS × List Event × List CleanupAction :=
  match _run_subprocess proc spawn params fs0 with
  | (.error e, fs1, evs) => (.error e, fs1, evs, [])
  | (.ok (result, hs), fs1, evs) =>
    match check_for_failure (proc params).failure_mode result with
    | .ok () => (.ok (params, result), fs1, evs, hs)
    | .error (.processFailed m) =>
      (.error (.processFailed m), (runHandlers fs1 hs).1,
        evs ++ (runHandlers fs1 hs).2, [])
    | .error (.error _) =>
      (.ok (params, result), (runHandlers fs1 hs).1,
        evs ++ (runHandlers fs1 hs).2, hs)

/-- `Subprocessor.__exit__` (subprocessor.py lines 239-246): after the
pool shuts down, the executor-wide cleanup handlers run (then the list
is cleared). -/
def Subprocessor_shutdown (fs : FS) (merged : List CleanupAction) : FS × List Event :=
  runHandlers fs merged

/-- All handler/spawn events of one invocation over the executor's whole
lifetime: the events of `run` followed by the shutdown run of the
handlers `run` merged into the executor-wide registry. -/
def run_lifetime_events (proc : ParamSet → ResolvedProcess)
    (spawn : String → List String → Int) (params : ParamSet) (fs0 : FS) :
    List Event :=
  match _ProcessRunner_run proc spawn params fs0 with
  | (_, fs1, evs, merged) => evs ++ (Subprocessor_shutdown fs1 merged).2

set_option linter.unusedVariables false in
/-- `Subprocessor.process(runnable, params_it)` (subprocessor.py lines
248-256): `self._pool.map(native_runnable.run, params_it)`.
`ThreadPoolExecutor.map` is an external interface whose contract is to
yield exactly the results of `run` applied to the inputs, in input
order, for every pool size (`max_processes` only bounds the concurrent
executions, which are independent here: each invocation prepares its
own files, with temp-name freshness guaranteed by `mkstemp`). -/
def Subprocessor_process (proc : ParamSet → ResolvedProcess)
    (spawn : String → List String → Int) (max_processes : Nat)
    (ps : List ParamSet) (fs0 : FS) :
    List (Except PyExc (ParamSet × Result) × FS × List Event × List CleanupAction) :=
  ps.map fun p => _ProcessRunner_run proc spawn p fs0

def exceptIsOk {α : Type} : Except PyExc α → Bool
  | .ok _ => true
  | .error _ => false

/-! ## The remote cluster generator (htcondor.py lines 783-875) -/

/-- A submission record: a flat ClassAd-style attribute map. -/
abbrev SubmitRecord := List (String × String)

/-- `_JobClusterGenerator.__iter__` (htcondor.py lines 839-875).  The
try-body for one parameter set (lines 841-862: `with_params`, file
preparation for the chosen transfer strategy, submit-record assembly) is
abstracted as `prep`.  On any exception the generator first yields the
placeholder record `{'executable': '/bin/ls'}` and then re-raises (lines
864-869, the degenerate-input guard for the bindings crash of ticket
7609); otherwise the record is yielded and iteration continues.  The
value is the list of yielded records together with the escaping
exception, if any. -/
def jobClusterIter (prep : ParamSet → Except PyExc SubmitRecord) :
    List ParamSet → List SubmitRecord × Option PyExc
  | [] => ([], none)
  | p :: ps =>
    match prep p with
    | .error e => ([[("executable", "/bin/ls")]], some e)
    | .ok d =>
      match jobClusterIter prep ps with
      | (rs, err) => (d :: rs, err)

/-! ## Claim theorems settled so far -/

/-- C4: the wire-encoding helpers match the fixed concrete vectors:
`_args_to_str([])` is two double quotes, `_args_to_str(['a and b'])`
wraps the token in single quotes, `_args_to_str(['"'])` is four double
quotes, `_environment_to_str({'K': ''})` quotes the empty value as two
single quotes, and `_file_remaps_to_str({'a;a=a': 'b;b=b'})` escapes `=`
in the key and `;` in the value, each result wrapped in double quotes. -/
theorem C4_wire_encoding_vectors :
    _args_to_str [] = "\"\"" ∧
    _args_to_str ["a and b"] = "\"\x27a and b\x27\"" ∧
    _args_to_str ["\""] = "\"\"\"\"" ∧
    _environment_to_str [("K", "")] = "\"K=\x27\x27\"" ∧
    _file_remaps_to_str [("a;a=a", "b;b=b")] = "\"a;a\\=a=b\\;b=b\"" := by
  decide

/-- C1: the claim states that a `Result` constructed from an execution
with exit code `c` reports `exit_code = c`.  The code contradicts this:
`Result.__init__` assigns the literal `0` to `self._exit_code`
(process.py line 833), discarding the `exit_code` argument, so the
property returns `0` for every constructed `Result`; at exit code 13 it
does not report 13. -/
theorem C1_result_exit_code_ignored :
    (∀ (c : Int) (si so se : Option FileAccessor)
        (inf outf : List (String × FileAccessor)),
      (mkResult c si so se inf outf).exit_code = 0) ∧
    (mkResult 13 none none none [] []).exit_code ≠ 13 := by
  refine ⟨fun c si so se inf outf => rfl, by decide⟩

/-- C5: for predicates that return (do not raise), classification
declares a failure iff at least one configured predicate returns true,
in the fixed order exit code, stderr, stdout (the match with
`classifySpec` fixes both the verdict and which predicate is reported);
and with the failure mode installed by `Process.__init__` (no predicate
configured by the user) the verdict is failure iff the stored exit code
is nonzero.  `Process.Fluid.failure_mode` replaces the whole record
(see `fluid_failure_mode`), so configuring any predicate disables the
default. -/
theorem C5_failure_classification
    (ec : Option (Int → Bool)) (sd so : Option (FileAccessor → Bool))
    (r : Result) (aErr aOut : FileAccessor)
    (hsd : sd.isSome = true → r._stderr = some aErr)
    (hso : so.isSome = true → r._stdout = some aOut) :
    (check_for_failure (pureFM ec sd so) r =
      match classifySpec ec sd so r.exit_code aErr aOut with
      | none => .ok ()
      | some k => .error (.processFailed (failMsg r.exit_code k))) ∧
    (check_for_failure (fluid_failure_mode (pureFM ec sd so).interpret_exit_code
        (pureFM ec sd so).interpret_stderr (pureFM ec sd so).interpret_stdout) r =
      check_for_failure (pureFM ec sd so) r) ∧
    (check_for_failure processInitFailureMode r = .ok () ↔ r.exit_code = 0) := by
  refine ⟨?_, rfl, ?_⟩
  · rcases ec with _ | f <;> rcases sd with _ | g <;> rcases so with _ | k <;>
      simp only [pureFM, Option.map, check_for_failure, checkExitCode, checkStderr,
        checkStdout, classifySpec, failMsg, Result.stderrProp, Result.stdoutProp] <;>
      first
        | rfl
        | ((try rw [hsd (by rfl)]); (try rw [hso (by rfl)]); split_ifs <;> simp_all)
  · simp only [check_for_failure, checkExitCode, checkStderr, checkStdout,
      processInitFailureMode]
    split_ifs with h
    · simp_all [bne_iff_ne]
    · simp_all [bne_iff_ne]

/-- Concrete instantiation of `C5_failure_classification`: a configured
stderr predicate fires on a captured stderr accessor. -/
theorem C5_failure_classification_witness :
    (check_for_failure
        (pureFM none (some fun a => a.name == "stderr") none)
        (mkResult 7 none none (some ⟨"stderr", "/e", none⟩) [] []) =
      match classifySpec none (some fun a => a.name == "stderr") none
          (mkResult 7 none none (some ⟨"stderr", "/e", none⟩) [] []).exit_code
          ⟨"stderr", "/e", none⟩ ⟨"", "", none⟩ with
      | none => .ok ()
      | some k => .error (.processFailed
          (failMsg (mkResult 7 none none (some ⟨"stderr", "/e", none⟩) [] []).exit_code k))) ∧
    (check_for_failure
        (fluid_failure_mode
          (pureFM none (some fun a => a.name == "stderr") none).interpret_exit_code
          (pureFM none (some fun a => a.name == "stderr") none).interpret_stderr
          (pureFM none (some fun a => a.name == "stderr") none).interpret_stdout)
        (mkResult 7 none none (some ⟨"stderr", "/e", none⟩) [] []) =
      check_for_failure (pureFM none (some fun a => a.name == "stderr") none)
        (mkResult 7 none none (some ⟨"stderr", "/e", none⟩) [] [])) ∧
    (check_for_failure processInitFailureMode
        (mkResult 7 none none (some ⟨"stderr", "/e", none⟩) [] []) = .ok () ↔
      (mkResult 7 none none (some ⟨"stderr", "/e", none⟩) [] []).exit_code = 0) :=
  C5_failure_classification none (some fun a => a.name == "stderr") none
    (mkResult 7 none none (some ⟨"stderr", "/e", none⟩) [] [])
    ⟨"stderr", "/e", none⟩ ⟨"", "", none⟩ (fun _ => rfl) (by intro h; cases h)

/-- An input file pinned to `/pin` while a file already exists there. -/
def pinnedInputSpec : InputFileSpec :=
  { name := "f", isInputFile := true, source := some (.fromStr "data")
    path := some "/pin", must_not_exist := true, mode := 0o666
    cleanup_after_finish := false }

/-- A file system in which the pinned path `/pin` already exists. -/
def pinnedFS : FS := ⟨[("/pin", ⟨0o666, none⟩)], 0⟩

/-- C3: the claim states that preparing an input file pinned to an
existing path raises `ResourceConflict` when `must_not_exist` is true
and accepts the file, resetting its permission bits, when it is false.
The code does neither: the pinned-path branch of `prepare_input_file`
first evaluates `spec.create_parents` (subprocessor.py line 62), an
attribute that `Process.InputFile` and `Process.Stdin` do not define, so
every pinned-path preparation raises `AttributeError` — for both values
of `must_not_exist` — and the exclusive-create/chmod code behind it is
unreachable.  The file system and handler list are returned untouched. -/
theorem C3_pinned_path_attribute_error :
    prepare_input_file pinnedInputSpec "" pinnedFS [] =
      (.error (.error "AttributeError: create_parents"), pinnedFS, []) ∧
    prepare_input_file { pinnedInputSpec with must_not_exist := false } "" pinnedFS [] =
      (.error (.error "AttributeError: create_parents"), pinnedFS, []) := by
  constructor <;> rfl

/-- C8: an input file whose source is a `WriteableFromPath` and whose
pinned path is `None` is prepared without a copy: the descriptor's
`open_path` and `process_path` are both the source's own path, it is
neither temporary nor cleaned up, the file system is unchanged (nothing
is written), and the cleanup-handler list is unchanged (no deletion
handler is registered). -/
theorem C8_no_copy_for_path_source (spec : InputFileSpec) (nameArg : String)
    (fs : FS) (hs : List CleanupAction) (sp : String)
    (hsrc : spec.source = some (.fromPath sp)) (hpath : spec.path = none) :
    prepare_input_file spec nameArg fs hs =
      (.ok ⟨if nameArg = "" ∧ spec.isInputFile then spec.name else nameArg,
        sp, sp, false, false, none⟩, fs, hs) := by
  simp only [prepare_input_file, hsrc, hpath]

/-- Concrete instantiation of `C8_no_copy_for_path_source`: replaying an
existing artifact from `/data/artifact`. -/
theorem C8_no_copy_for_path_source_witness :
    prepare_input_file
      { name := "replay", isInputFile := true
        source := some (.fromPath "/data/artifact"), path := none
        must_not_exist := true, mode := 0o666, cleanup_after_finish := false }
      "" ⟨[("/data/artifact", ⟨0o644, none⟩)], 0⟩ [] =
      (.ok ⟨"replay", "/data/artifact", "/data/artifact", false, false, none⟩,
        ⟨[("/data/artifact", ⟨0o644, none⟩)], 0⟩, []) := by
  have h := C8_no_copy_for_path_source
    { name := "replay", isInputFile := true
      source := some (.fromPath "/data/artifact"), path := none
      must_not_exist := true, mode := 0o666, cleanup_after_finish := false }
    "" ⟨[("/data/artifact", ⟨0o644, none⟩)], 0⟩ [] "/data/artifact" rfl rfl
  simpa using h

/-- The template `bash -c "exit 13"` with the default failure
classification: no stdin/stdout/stderr connection, no files, the
failure mode installed by `Process.__init__`. -/
def c2proc : ParamSet → ResolvedProcess := fun _ =>
  { cmd := "bash", args := ["-c", "exit 13"], working_directory := none
    environment := []
    stdin := ⟨"", false, none, none, true, 0o666, false⟩
    stdout := ⟨"", false, false, none, true, true, 0o666, false⟩
    stderr := ⟨"", false, false, none, true, true, 0o666, false⟩
    input_files := [], output_files := []
    failure_mode := processInitFailureMode }

/-- C2: the claim states that executing `bash -c "exit 13"` under the
default failure classification raises `ProcessFailed` with exit code 13.
The code does not: the spawned process exits with 13 (the spawn oracle
returns 13), but `Result.__init__` stores `0` regardless (process.py
line 833), so the default predicate `code != 0` sees `0`, classifies
the execution as a success, and `run` returns the `(params, Result)`
pair — whose `exit_code` property moreover reads `0`, not 13. -/
theorem C2_exit13_not_raised :
    _ProcessRunner_run c2proc (fun _ _ => 13) [] ⟨[], 0⟩ =
      (.ok ([], mkResult 13 none none none [] []), ⟨[], 0⟩,
        [.spawn "bash" ["-c", "exit 13"]], []) ∧
    (mkResult 13 none none none [] []).exit_code = 0 :=
  ⟨rfl, rfl⟩

/-- One temporary input file (registering one unlink cleanup handler)
and an exit-code predicate that raises `TypeError` during
classification. -/
def c6proc : ParamSet → ResolvedProcess := fun _ =>
  { cmd := "/bin/true", args := [], working_directory := none
    environment := []
    stdin := ⟨"", false, none, none, true, 0o666, false⟩
    stdout := ⟨"", false, false, none, true, true, 0o666, false⟩
    stderr := ⟨"", false, false, none, true, true, 0o666, false⟩
    input_files := [⟨"data", true, some (.fromStr "x"), none, true, 0o666, false⟩]
    output_files := []
    failure_mode := ⟨some fun _ => .error (.error "TypeError: boom"), none, none⟩ }

/-- C6: the claim states that every cleanup handler registered during
one invocation runs at most once over the executor's lifetime, on every
execution path.  On the path where a classification predicate raises a
non-`_ProcessFailedError` exception, `run` (subprocessor.py lines
279-283) both invokes the invocation's handlers immediately (bare
`except:`) and then still merges the same handlers into the
executor-wide registry, which `Subprocessor.__exit__` runs again at
shutdown: the unlink handler of the temp input file runs twice. -/
theorem C6_handler_runs_twice :
    (run_lifetime_events c6proc (fun _ _ => 0) [] ⟨[], 0⟩).count
        (.runHandler (.unlink "/tmp/bjec0")) = 2 ∧
    exceptIsOk (_ProcessRunner_run c6proc (fun _ _ => 0) [] ⟨[], 0⟩).1 = true :=
  ⟨rfl, rfl⟩

/-- C9: when `_run_subprocess` succeeds and a configured failure
predicate then raises any exception other than `_ProcessFailedError`,
`run` invokes that invocation's cleanup handlers (their events are
appended), swallows the exception, and returns the `(params, Result)`
pair as if the invocation had succeeded (subprocessor.py lines
272-285). -/
theorem C9_predicate_exception_swallowed (proc : ParamSet → ResolvedProcess)
    (spawn : String → List String → Int) (params : ParamSet) (fs0 : FS)
    (result : Result) (hs : List CleanupAction) (fs1 : FS) (evs : List Event)
    (m : String)
    (h1 : _run_subprocess proc spawn params fs0 = (.ok (result, hs), fs1, evs))
    (h2 : check_for_failure (proc params).failure_mode result = .error (.error m)) :
    _ProcessRunner_run proc spawn params fs0 =
      (.ok (params, result), (runHandlers fs1 hs).1,
        evs ++ (runHandlers fs1 hs).2, hs) := by
  simp [_ProcessRunner_run, h1, h2]

/-- The `Result` produced by the `c9proc` invocation. -/
def c9result : Result :=
  mkResult 0 none none none [("data", ⟨"data", "/tmp/bjec0", none⟩)] []

/-- The file system after the `c9proc` preparation and spawn. -/
def c9fs1 : FS := ⟨[("/tmp/bjec0", ⟨0o600, some (.fromStr "x")⟩)], 1⟩

/-- Same configuration as `c6proc`, for the C9 instantiation. -/
def c9proc : ParamSet → ResolvedProcess := fun _ =>
  { cmd := "/bin/true", args := [], working_directory := none
    environment := []
    stdin := ⟨"", false, none, none, true, 0o666, false⟩
    stdout := ⟨"", false, false, none, true, true, 0o666, false⟩
    stderr := ⟨"", false, false, none, true, true, 0o666, false⟩
    input_files := [⟨"data", true, some (.fromStr "x"), none, true, 0o666, false⟩]
    output_files := []
    failure_mode := ⟨some fun _ => .error (.error "TypeError: boom"), none, none⟩ }

/-- Concrete instantiation of `C9_predicate_exception_swallowed`. -/
theorem C9_predicate_exception_swallowed_witness :
    _ProcessRunner_run c9proc (fun _ _ => 0) [] ⟨[], 0⟩ =
      (.ok (([] : ParamSet), c9result),
        (runHandlers c9fs1 [.unlink "/tmp/bjec0"]).1,
        [Event.spawn "/bin/true" []] ++ (runHandlers c9fs1 [.unlink "/tmp/bjec0"]).2,
        [.unlink "/tmp/bjec0"]) :=
  C9_predicate_exception_swallowed c9proc (fun _ _ => 0) [] ⟨[], 0⟩
    c9result [.unlink "/tmp/bjec0"] c9fs1 [Event.spawn "/bin/true" []]
    "TypeError: boom" rfl rfl

/-- A successful `run` returns its own parameter set paired with the
produced `Result` (both normal-return paths of subprocessor.py line
285). -/
theorem processRunner_run_ok_pair (proc : ParamSet → ResolvedProcess)
    (spawn : String → List String → Int) (params : ParamSet) (fs0 : FS)
    (h : exceptIsOk (_ProcessRunner_run proc spawn params fs0).1 = true) :
    ∃ r : Result, (_ProcessRunner_run proc spawn params fs0).1 = .ok (params, r) := by
  rcases h1 : _run_subprocess proc spawn params fs0 with ⟨out, fs1, evs⟩
  rcases out with e | ⟨result, hs⟩
  · exfalso
    simp [_ProcessRunner_run, h1, exceptIsOk] at h
  · rcases h2 : check_for_failure (proc params).failure_mode result with e | u
    · rcases e with m | m
      · exfalso
        simp [_ProcessRunner_run, h1, h2, exceptIsOk] at h
      · exact ⟨result, by simp [_ProcessRunner_run, h1, h2]⟩
    · exact ⟨result, by simp [_ProcessRunner_run, h1, h2]⟩

/-- C10: for a finite parameter stream in which every invocation
succeeds, the local executor's `process` yields exactly one
`(parameters, Result)` pair per parameter set, the i-th pair carrying
the i-th input parameter set (for every pool size `n`; the embedding of
`ThreadPoolExecutor.map` is pool-size independent by its contract). -/
theorem C10_one_pair_per_params_in_order (proc : ParamSet → ResolvedProcess)
    (spawn : String → List String → Int) (n : Nat) (ps : List ParamSet) (fs0 : FS)
    (h : ∀ p ∈ ps, exceptIsOk (_ProcessRunner_run proc spawn p fs0).1 = true) :
    (Subprocessor_process proc spawn n ps fs0).length = ps.length ∧
    ∀ i (hi : i < ps.length), ∃ r : Result,
      ((Subprocessor_process proc spawn n ps fs0).map (fun o => o.1))[i]? =
        some (.ok (ps[i], r)) := by
  constructor
  · simp [Subprocessor_process]
  · intro i hi
    obtain ⟨r, hr⟩ := processRunner_run_ok_pair proc spawn ps[i] fs0
      (h ps[i] (List.getElem_mem hi))
    exact ⟨r, by simp [Subprocessor_process, List.getElem?_map,
      List.getElem?_eq_getElem hi, hr]⟩

/-- A trivial always-exit-0 template for the C10 instantiation. -/
def c10proc : ParamSet → ResolvedProcess := fun _ =>
  { cmd := "/bin/echo", args := [], working_directory := none
    environment := []
    stdin := ⟨"", false, none, none, true, 0o666, false⟩
    stdout := ⟨"", false, false, none, true, true, 0o666, false⟩
    stderr := ⟨"", false, false, none, true, true, 0o666, false⟩
    input_files := [], output_files := []
    failure_mode := processInitFailureMode }

/-- Three parameter sets for the C10 instantiation. -/
def c10ps : List ParamSet := [[("i", "1")], [("i", "2")], [("i", "3")]]

/-- Concrete instantiation of `C10_one_pair_per_params_in_order`: three
parameter sets, a template that always exits 0, pool size 3. -/
theorem C10_one_pair_per_params_in_order_witness :
    (Subprocessor_process c10proc (fun _ _ => 0) 3 c10ps ⟨[], 0⟩).length = 3 ∧
    ∃ r : Result,
      ((Subprocessor_process c10proc (fun _ _ => 0) 3 c10ps ⟨[], 0⟩).map
        (fun o => o.1))[0]? = some (.ok ([("i", "1")], r)) := by
  have h := C10_one_pair_per_params_in_order c10proc (fun _ _ => 0) 3 c10ps
    ⟨[], 0⟩ (by decide)
  exact ⟨h.1, h.2 0 (by decide)⟩

/-- C7: the cluster generator yields at least one record for every
non-empty parameter stream, and when preparing the very first parameter
set raises, exactly the placeholder record `{'executable': '/bin/ls'}`
is yielded before the preparation failure is re-raised to the caller. -/
theorem C7_yields_placeholder_before_reraise
    (prep : ParamSet → Except PyExc SubmitRecord) (p : ParamSet)
    (ps : List ParamSet) :
    1 ≤ (jobClusterIter prep (p :: ps)).1.length ∧
    ∀ e, prep p = .error e →
      jobClusterIter prep (p :: ps) = ([[("executable", "/bin/ls")]], some e) := by
  constructor
  · rcases h : prep p with e | d
    · simp [jobClusterIter, h]
    · rcases h2 : jobClusterIter prep ps with ⟨rs, err⟩
      simp [jobClusterIter, h, h2]
  · intro e he
    simp [jobClusterIter, he]

/-- A preparation that fails on the very first parameter set. -/
def c7prep : ParamSet → Except PyExc SubmitRecord := fun _ =>
  .error (.error "IOError: staging failed")

/-- Concrete instantiation of `C7_yields_placeholder_before_reraise`. -/
theorem C7_yields_placeholder_before_reraise_witness :
    jobClusterIter c7prep [[]] =
      ([[("executable", "/bin/ls")]], some (.error "IOError: staging failed")) :=
  (C7_yields_placeholder_before_reraise c7prep [] []).2
    (.error "IOError: staging failed") rfl

end Bjec
